import Mathlib

/-!
Verification of the IRQ-timestamp tracking module (src/lora-phy/src/irq_timestamp.rs).

The module holds two pieces of process-wide state:
  * `LAST_IRQ_TIMESTAMP_US : AtomicU64`, starting at 0;
  * `IRQ_TIMESTAMP_FN : Option<fn() -> u64>`, starting at `None`;
and four operations: `set_irq_timestamp_fn`, `clear_irq_timestamp_fn`,
`last_irq_timestamp_us`, and `record_irq_timestamp`.

Shallow embedding choices:
  * The global state becomes an explicit `TrackerState` record threaded
    through every operation.
  * A Rust `fn() -> u64` time source reads a clock, so successive
    invocations may return different values.  We model a time source as a
    stream `Nat → Nat` of its successive u64 return values, indexed by the
    number of time-source invocations performed so far; the state carries
    that invocation counter (`fn_calls`).  The counter is pure
    instrumentation: it lets theorems say "the source was invoked exactly
    once" and lets a source return different values on different calls.
  * u64 values are naturals reduced mod 2^64; the time source's return
    value is truncated with `% U64_MOD` exactly where Rust's `u64` return
    type truncates it.  No other arithmetic happens in the module.
  * `AtomicU64.load`/`AtomicU64.store` with `Ordering::Relaxed` are atomic
    on the whole 64-bit value, so each of them is one indivisible step of
    the model; a trace semantics (`runFrom` over lists of `Op`) expresses
    interleavings of the operations at that granularity.
-/

namespace IrqTimestamp

/-- Modulus of Rust's `u64` type. -/
def U64_MOD : Nat := 2 ^ 64

/-- A time source (`fn() -> u64` in the Rust code): the stream of values it
returns on its successive invocations.  `f k` is the (untruncated) value
produced by the (k+1)-st invocation of the source. -/
def TimeSource : Type := Nat → Nat

/-- The process-wide state of the module: the two statics of
`irq_timestamp.rs`, plus the `fn_calls` instrumentation counter counting
how many times a time source has been invoked by `record_irq_timestamp`. -/
structure TrackerState where
  LAST_IRQ_TIMESTAMP_US : Nat
  IRQ_TIMESTAMP_FN : Option TimeSource
  fn_calls : Nat

/-- The state at program start: `AtomicU64::new(0)` and `None`. -/
def initState : TrackerState :=
  { LAST_IRQ_TIMESTAMP_US := 0, IRQ_TIMESTAMP_FN := none, fn_calls := 0 }

/-- Embeds `pub fn set_irq_timestamp_fn(f: fn() -> u64)`:
`IRQ_TIMESTAMP_FN = Some(f)`. -/
def set_irq_timestamp_fn (f : TimeSource) (s : TrackerState) : TrackerState :=
  { s with IRQ_TIMESTAMP_FN := some f }

/-- Embeds `pub fn clear_irq_timestamp_fn()`: `IRQ_TIMESTAMP_FN = None`. -/
def clear_irq_timestamp_fn (s : TrackerState) : TrackerState :=
  { s with IRQ_TIMESTAMP_FN := none }

/-- Embeds `pub fn last_irq_timestamp_us() -> u64`:
`LAST_IRQ_TIMESTAMP_US.load(Ordering::Relaxed)`. -/
def last_irq_timestamp_us (s : TrackerState) : Nat :=
  s.LAST_IRQ_TIMESTAMP_US

/-- Embeds `pub(crate) fn record_irq_timestamp()`: read `IRQ_TIMESTAMP_FN`;
if it is `Some(f)`, invoke `f` once and store its u64 return value into
`LAST_IRQ_TIMESTAMP_US`; otherwise do nothing. -/
def record_irq_timestamp (s : TrackerState) : TrackerState :=
  match s.IRQ_TIMESTAMP_FN with
  | some f =>
      { s with
        LAST_IRQ_TIMESTAMP_US := f s.fn_calls % U64_MOD
        fn_calls := s.fn_calls + 1 }
  | none => s

/-- One invocation of an operation of the module's API. -/
inductive Op where
  | install (f : TimeSource)
  | clear
  | record
  | read

/-- Effect of one operation on the tracker state.  `read` performs only an
atomic load and leaves the state untouched. -/
def step (s : TrackerState) : Op → TrackerState
  | Op.install f => set_irq_timestamp_fn f s
  | Op.clear => clear_irq_timestamp_fn s
  | Op.record => record_irq_timestamp s
  | Op.read => s

/-- Runs a sequence of operations from a given state. -/
def runFrom (s : TrackerState) : List Op → TrackerState
  | [] => s
  | op :: rest => runFrom (step s op) rest

/-- The values stored into `LAST_IRQ_TIMESTAMP_US` along a run: one entry
per `record` that finds a time source installed, in execution order. -/
def storedValues (s : TrackerState) : List Op → List Nat
  | [] => []
  | Op.record :: rest =>
      match s.IRQ_TIMESTAMP_FN with
      | some f => (f s.fn_calls % U64_MOD) :: storedValues (step s Op.record) rest
      | none => storedValues (step s Op.record) rest
  | op :: rest => storedValues (step s op) rest

/-! ### Helper lemmas -/

theorem record_of_none (s : TrackerState) (h : s.IRQ_TIMESTAMP_FN = none) :
    record_irq_timestamp s = s := by
  simp [record_irq_timestamp, h]

theorem record_of_some (s : TrackerState) (f : TimeSource)
    (h : s.IRQ_TIMESTAMP_FN = some f) :
    record_irq_timestamp s =
      { s with
        LAST_IRQ_TIMESTAMP_US := f s.fn_calls % U64_MOD
        fn_calls := s.fn_calls + 1 } := by
  simp [record_irq_timestamp, h]

theorem record_fn_eq (s : TrackerState) :
    (record_irq_timestamp s).IRQ_TIMESTAMP_FN = s.IRQ_TIMESTAMP_FN := by
  cases h : s.IRQ_TIMESTAMP_FN with
  | none => rw [record_of_none s h]; exact h
  | some f => rw [record_of_some s f h]; exact h

theorem runFrom_append (s : TrackerState) (l1 l2 : List Op) :
    runFrom s (l1 ++ l2) = runFrom (runFrom s l1) l2 := by
  induction l1 generalizing s with
  | nil => rfl
  | cons op rest ih => simp [runFrom, ih]

theorem getLastD_cons (v d : Nat) (l : List Nat) :
    ((v :: l).getLast?).getD d = (l.getLast?).getD v := by
  cases l with
  | nil => rfl
  | cons a t => rw [List.getLast?_cons_cons]; rfl

/-- Core trace invariant: after any run, the stored value is the most
recently stored record value, or the starting value when no record stored
anything. -/
theorem runFrom_last (s : TrackerState) (ops : List Op) :
    (runFrom s ops).LAST_IRQ_TIMESTAMP_US =
      ((storedValues s ops).getLast?).getD s.LAST_IRQ_TIMESTAMP_US := by
  induction ops generalizing s with
  | nil => rfl
  | cons op rest ih =>
    cases op with
    | install f =>
        rw [show runFrom s (Op.install f :: rest) = runFrom (step s (Op.install f)) rest from rfl,
          ih]
        rfl
    | clear =>
        rw [show runFrom s (Op.clear :: rest) = runFrom (step s Op.clear) rest from rfl, ih]
        rfl
    | read =>
        rw [show runFrom s (Op.read :: rest) = runFrom (step s Op.read) rest from rfl, ih]
        rfl
    | record =>
        rw [show runFrom s (Op.record :: rest) = runFrom (step s Op.record) rest from rfl, ih]
        cases h : s.IRQ_TIMESTAMP_FN with
        | none =>
            have hstep : step s Op.record = s := record_of_none s h
            simp [storedValues, h, hstep]
        | some f =>
            have hstep : step s Op.record = { s with
                LAST_IRQ_TIMESTAMP_US := f s.fn_calls % U64_MOD
                fn_calls := s.fn_calls + 1 } := record_of_some s f h
            simp only [storedValues, h, hstep, getLastD_cons]

theorem record_iterate_of_none (s : TrackerState) (h : s.IRQ_TIMESTAMP_FN = none)
    (n : Nat) : record_irq_timestamp^[n] s = s := by
  induction n with
  | zero => rfl
  | succ k ih => rw [Function.iterate_succ_apply, record_of_none s h, ih]

theorem record_iterate_fn_eq (n : Nat) (s : TrackerState) :
    (record_irq_timestamp^[n] s).IRQ_TIMESTAMP_FN = s.IRQ_TIMESTAMP_FN := by
  induction n generalizing s with
  | zero => rfl
  | succ k ih =>
      rw [Function.iterate_succ_apply, ih (record_irq_timestamp s), record_fn_eq s]

/-- A time source returning 100 on its first invocation and 200 afterwards. -/
def ts100_200 : TimeSource := fun n => if n = 0 then 100 else 200

/-- The everywhere-zero time source. -/
def tsZero : TimeSource := fun _ => 0

/-! ### Claim theorems -/

/-- C1: for every state and installed time source `f`, calling
`record_irq_timestamp` after `set_irq_timestamp_fn f` invokes `f` exactly
once (the invocation counter advances by exactly one) and stores its u64
return value, so `last_irq_timestamp_us` then returns exactly the value `f`
returned during that record call. -/
theorem c1_record_stores_installed_source_value (s : TrackerState) (f : TimeSource) :
    (record_irq_timestamp (set_irq_timestamp_fn f s)).fn_calls
        = (set_irq_timestamp_fn f s).fn_calls + 1 ∧
      last_irq_timestamp_us (record_irq_timestamp (set_irq_timestamp_fn f s))
        = f (set_irq_timestamp_fn f s).fn_calls % U64_MOD :=
  ⟨rfl, rfl⟩

/-- C2: on fresh initialization (`AtomicU64::new(0)`, no source, no record
performed yet), `last_irq_timestamp_us` returns 0. -/
theorem c2_initial_last_timestamp_zero : last_irq_timestamp_us initState = 0 :=
  rfl

/-- C3: in any state with no time source installed, `record_irq_timestamp`
does nothing: the whole state (in particular the stored last timestamp) is
unchanged, so `last_irq_timestamp_us` returns the same value before and
after the call. -/
theorem c3_record_without_source_noop (s : TrackerState)
    (h : s.IRQ_TIMESTAMP_FN = none) :
    record_irq_timestamp s = s ∧
      last_irq_timestamp_us (record_irq_timestamp s) = last_irq_timestamp_us s := by
  have hs := record_of_none s h
  exact ⟨hs, by rw [hs]⟩

theorem c3_witness :
    record_irq_timestamp
        { LAST_IRQ_TIMESTAMP_US := 42, IRQ_TIMESTAMP_FN := none, fn_calls := 3 }
        = { LAST_IRQ_TIMESTAMP_US := 42, IRQ_TIMESTAMP_FN := none, fn_calls := 3 } ∧
      last_irq_timestamp_us (record_irq_timestamp
          { LAST_IRQ_TIMESTAMP_US := 42, IRQ_TIMESTAMP_FN := none, fn_calls := 3 })
        = last_irq_timestamp_us
            { LAST_IRQ_TIMESTAMP_US := 42, IRQ_TIMESTAMP_FN := none, fn_calls := 3 } :=
  c3_record_without_source_noop _ rfl

/-- C4: clearing the time source does not reset the stored value, and every
number of subsequent `record_irq_timestamp` calls (with no new source
installed in between) leaves the stored last timestamp unchanged, the
previously stored value staying readable via `last_irq_timestamp_us`. -/
theorem c4_clear_stops_updates (s : TrackerState) (n : Nat) :
    (clear_irq_timestamp_fn s).LAST_IRQ_TIMESTAMP_US = s.LAST_IRQ_TIMESTAMP_US ∧
      last_irq_timestamp_us (record_irq_timestamp^[n] (clear_irq_timestamp_fn s))
        = last_irq_timestamp_us s := by
  refine ⟨rfl, ?_⟩
  rw [record_iterate_of_none (clear_irq_timestamp_fn s) rfl n]
  rfl

/-- C5: record overwrites rather than accumulates: with a time source
returning 100 on the first record and 200 on the second, two records leave
`last_irq_timestamp_us` equal to 200 (not 300, no history retained). -/
theorem c5_record_overwrites (s : TrackerState) (f : TimeSource)
    (h1 : f s.fn_calls = 100) (h2 : f (s.fn_calls + 1) = 200) :
    last_irq_timestamp_us
        (record_irq_timestamp (record_irq_timestamp (set_irq_timestamp_fn f s)))
      = 200 := by
  show f (s.fn_calls + 1) % U64_MOD = 200
  rw [h2]; decide

theorem c5_witness :
    (ts100_200 initState.fn_calls = 100 ∧ ts100_200 (initState.fn_calls + 1) = 200) ∧
      last_irq_timestamp_us
          (record_irq_timestamp (record_irq_timestamp
            (set_irq_timestamp_fn ts100_200 initState)))
        = 200 :=
  ⟨⟨rfl, rfl⟩, c5_record_overwrites initState ts100_200 rfl rfl⟩

/-- C6: after any prior sequence of operations, installing `f` makes `f` the
installed source (last write wins), leaves the stored last timestamp
unchanged, keeps `f` installed across any number of subsequent records, and
the next record stores `f`'s return value. -/
theorem c6_install_replaces_source (ops : List Op) (f : TimeSource) (n : Nat) :
    (runFrom initState (ops ++ [Op.install f])).IRQ_TIMESTAMP_FN = some f ∧
      (runFrom initState (ops ++ [Op.install f])).LAST_IRQ_TIMESTAMP_US
        = (runFrom initState ops).LAST_IRQ_TIMESTAMP_US ∧
      (record_irq_timestamp^[n]
          (runFrom initState (ops ++ [Op.install f]))).IRQ_TIMESTAMP_FN = some f ∧
      last_irq_timestamp_us
          (record_irq_timestamp (runFrom initState (ops ++ [Op.install f])))
        = f (runFrom initState (ops ++ [Op.install f])).fn_calls % U64_MOD := by
  have ha : runFrom initState (ops ++ [Op.install f])
      = set_irq_timestamp_fn f (runFrom initState ops) := by
    rw [runFrom_append]; rfl
  refine ⟨?_, ?_, ?_, ?_⟩
  · rw [ha]; rfl
  · rw [ha]; rfl
  · rw [ha, record_iterate_fn_eq]; rfl
  · rw [ha]; rfl

/-- C7: over every interleaving of completed operations (each atomic
`AtomicU64` load/store being one indivisible step, per its atomicity
contract — so no torn value can be observed), reading the last value yields
either 0 (never recorded) or exactly the value stored by the most recent
completed record operation. -/
theorem c7_read_yields_latest_completed_store (ops : List Op) :
    last_irq_timestamp_us (runFrom initState ops)
      = ((storedValues initState ops).getLast?).getD 0 :=
  runFrom_last initState ops

/-- C8: reading the last timestamp modifies no tracker state (neither the
stored value nor the installed source), so two consecutive reads with no
intervening record return the same value. -/
theorem c8_read_is_pure (s : TrackerState) :
    step s Op.read = s ∧
      last_irq_timestamp_us (step s Op.read) = last_irq_timestamp_us s :=
  ⟨rfl, rfl⟩

/-- C9: if the installed time source returns 0, record stores 0
unconditionally, so `last_irq_timestamp_us` returns 0 afterwards — at the
public interface this is indistinguishable from the never-recorded initial
state. -/
theorem c9_zero_timestamp_indistinguishable (s : TrackerState) (f : TimeSource)
    (hf : s.IRQ_TIMESTAMP_FN = some f) (h0 : f s.fn_calls = 0) :
    last_irq_timestamp_us (record_irq_timestamp s) = 0 ∧
      last_irq_timestamp_us (record_irq_timestamp s)
        = last_irq_timestamp_us initState := by
  have hs := record_of_some s f hf
  have hv : last_irq_timestamp_us (record_irq_timestamp s) = 0 := by
    rw [hs]; show f s.fn_calls % U64_MOD = 0; rw [h0]; decide
  exact ⟨hv, hv⟩

theorem c9_witness :
    ((set_irq_timestamp_fn tsZero initState).IRQ_TIMESTAMP_FN = some tsZero ∧
        tsZero (set_irq_timestamp_fn tsZero initState).fn_calls = 0) ∧
      last_irq_timestamp_us
          (record_irq_timestamp (set_irq_timestamp_fn tsZero initState)) = 0 ∧
      last_irq_timestamp_us
          (record_irq_timestamp (set_irq_timestamp_fn tsZero initState))
        = last_irq_timestamp_us initState :=
  ⟨⟨rfl, rfl⟩, c9_zero_timestamp_indistinguishable _ tsZero rfl rfl⟩

/-- C10: record never modifies the installed time-source slot: for every
state, the source installed after `record_irq_timestamp` is identical to the
one installed before (the callback is not consumed, cleared or replaced). -/
theorem c10_record_preserves_source (s : TrackerState) :
    (record_irq_timestamp s).IRQ_TIMESTAMP_FN = s.IRQ_TIMESTAMP_FN :=
  record_fn_eq s

end IrqTimestamp
